import Mathlib

/-!
Verification of the schema translator and DDL emitter of the
`data_gen_tool` repository, which consists of two nearly identical
scripts, `gen_tpcds_data.py` and `gen_tpch_data.py`.  Each script has a
type-name normalizer `duckdb_type_to_hive_type`, a DDL builder
`generate_hive_ddl`, a schema fetcher `get_table_schema`, and a driver
that writes a `.hql` file with a fixed preamble and one DDL block per
table.

The Python string primitives the scripts use are embedded explicitly:
`str.upper` (ASCII upper-casing, the only characters that occur are
ASCII), the substring test `needle in hay`, `sep.join(list)`,
`dict.get(key, default)`, and `os.path.join`.  Strings are Lean
`String`s; `None` becomes `Option.none`.  Sequential `f.write` calls on
one file handle are modelled as concatenation of the written strings in
order.
-/

/-- Python `str.upper` restricted to ASCII, which is all the scripts ever
see: upper-cases every character of the string. -/
def pyUpper (s : String) : String := ⟨s.data.map Char.toUpper⟩

/-- Substring test on character lists: `isInfixOfB n h` is `true` iff `n`
occurs contiguously inside `h` (also when `n` is empty). -/
def isInfixOfB (needle : List Char) : List Char → Bool
  | [] => needle.isEmpty
  | c :: rest => needle.isPrefixOf (c :: rest) || isInfixOfB needle rest

/-- Python's `needle in hay` membership test for strings. -/
def inStr (needle hay : String) : Bool := isInfixOfB needle.data hay.data

/-- Python's `sep.join(parts)`: the parts concatenated with `sep`
between consecutive parts. -/
def joinSep (sep : String) : List String → String
  | [] => ""
  | [x] => x
  | x :: y :: rest => x ++ sep ++ joinSep sep (y :: rest)

/-- Concatenation of a list of strings in order; models a sequence of
`f.write` calls on one open file handle. -/
def concatAll : List String → String
  | [] => ""
  | x :: rest => x ++ concatAll rest

/-- Python's `os.path.join(a, b)` for a relative second component: `b`
when `a` is empty, `a ++ b` when `a` already ends in the separator, and
`a ++ "/" ++ b` otherwise. -/
def pathJoin (a b : String) : String :=
  if a = "" then b
  else if a.data.getLast? == some '/' then a ++ b
  else a ++ "/" ++ b

/-- The `type_mapping` dictionary, identical in both scripts
(`gen_tpcds_data.py` lines 11-32, `gen_tpch_data.py` lines 12-33),
as an association list in source order; the keys are distinct, so the
list lookup agrees with the Python dict lookup. -/
def type_mapping : List (String × String) :=
  [("INTEGER", "INT"),
   ("INT", "INT"),
   ("BIGINT", "BIGINT"),
   ("SMALLINT", "SMALLINT"),
   ("TINYINT", "TINYINT"),
   ("DECIMAL", "DECIMAL"),
   ("NUMERIC", "DECIMAL"),
   ("REAL", "FLOAT"),
   ("FLOAT", "FLOAT"),
   ("DOUBLE", "DOUBLE"),
   ("VARCHAR", "STRING"),
   ("CHAR", "STRING"),
   ("TEXT", "STRING"),
   ("STRING", "STRING"),
   ("BOOLEAN", "BOOLEAN"),
   ("DATE", "DATE"),
   ("TIMESTAMP", "TIMESTAMP"),
   ("TIME", "STRING"),
   ("BLOB", "BINARY"),
   ("BINARY", "BINARY")]

/-- Python's `m.get(k, dflt)` on an association list with distinct keys. -/
def dictGet (m : List (String × String)) (k dflt : String) : String :=
  (m.lookup k).getD dflt

/-- The type normalizer `duckdb_type_to_hive_type`, identical in both
scripts (`gen_tpcds_data.py` lines 8-40, `gen_tpch_data.py` lines 8-43).
The source first reassigns `duckdb_type = duckdb_type.upper()`, so every
later reference is to the upper-cased string.  The first branch returns
`duckdb_type.replace('DECIMAL', 'DECIMAL')`, which replaces the pattern
by itself and therefore returns the (upper-cased) string unchanged; it
is embedded as returning that string. -/
def duckdb_type_to_hive_type (duckdb_type : String) : String :=
  let u := pyUpper duckdb_type
  if inStr "DECIMAL" u && inStr "(" u then u
  else if inStr "VARCHAR" u && inStr "(" u then "STRING"
  else if inStr "CHAR" u && inStr "(" u then "STRING"
  else dictGet type_mapping u "STRING"

/-- Body of the column loop of both DDL builders: the pair
`(col_name, col_type)` rendered as `f"  {col_name} {col_type}"`
(`gen_tpcds_data.py` line 60, `gen_tpch_data.py` line 68). -/
def column_def (c : String × String) : String := "  " ++ c.1 ++ " " ++ c.2

/-- The `get_table_schema` loop of both scripts, given the rows the
engine's `DESCRIBE` returns as (column name, native type) pairs: every
native type is normalized, names and order are kept. -/
def get_table_schema (rows : List (String × String)) : List (String × String) :=
  rows.map (fun r => (r.1, duckdb_type_to_hive_type r.2))

/-- A table as reported by the embedded engine: its name, its row count
(`SELECT COUNT(*)`), and its `DESCRIBE` rows as (name, native type)
pairs.  The drivers consume the engine's table listing in order. -/
structure TableData where
  name : String
  row_count : Nat
  raw_columns : List (String × String)

namespace tpcds

/-- The TPC-DS script's `generate_hive_ddl(table_name, columns)`
(`gen_tpcds_data.py` lines 55-63): internal-table DDL only. -/
def generate_hive_ddl (table_name : String) (columns : List (String × String)) : String :=
  "CREATE TABLE IF NOT EXISTS " ++ table_name ++ " (\n"
    ++ joinSep ",\n" (columns.map column_def)
    ++ "\n)\nSTORED AS PARQUET;"

/-- One iteration of the TPC-DS driver's per-table writes
(`gen_tpcds_data.py` lines 116-119): the comment line, then the DDL
block built from the normalized schema, then a blank line. -/
def table_block (t : TableData) : String :=
  "-- Table: " ++ t.name ++ " (" ++ toString t.row_count ++ " rows)\n"
    ++ generate_hive_ddl t.name (get_table_schema t.raw_columns)
    ++ "\n\n"

/-- The TPC-DS driver's DDL file path
(`gen_tpcds_data.py` line 93): `os.path.join(output_dir, "tpcds_sf1_hive.hql")`. -/
def ddl_file_path (output_dir : String) : String :=
  pathJoin output_dir "tpcds_sf1_hive.hql"

/-- The full content the TPC-DS driver writes to the DDL file
(`gen_tpcds_data.py` lines 95-119), with the scale factor and the
generation timestamp already rendered as strings: the two header
comments, the database preamble, then the per-table blocks in the order
the engine listed the tables. -/
def ddl_file_content (scale_factor generation_time : String) (tables : List TableData) : String :=
  "-- Hive DDL for TPC-DS SF" ++ scale_factor ++ "\n"
    ++ ("-- 生成时间: " ++ generation_time ++ "\n\n")
    ++ "-- 创建数据库\n"
    ++ "CREATE DATABASE IF NOT EXISTS tpcds_sf1;\n"
    ++ "USE tpcds_sf1;\n\n"
    ++ concatAll (tables.map table_block)

end tpcds

namespace tpch

/-- Truthiness of the `location` argument in `if location and is_external`
(`gen_tpch_data.py` line 76): `None` and the empty string are falsy. -/
def locationTruthy : Option String → Bool
  | none => false
  | some l => !(l == "")

/-- The declared default of the `is_external` parameter of the TPC-H
builder (`gen_tpch_data.py` line 60: `is_external=True`). -/
def is_external_default : Bool := true

/-- The declared default of the `location` parameter of the TPC-H
builder (`gen_tpch_data.py` line 60: `location=None`). -/
def location_default : Option String := none

/-- The TPC-H script's
`generate_hive_ddl(table_name, columns, is_external, location)`
(`gen_tpch_data.py` lines 60-81).  `table_type` is `"EXTERNAL"` or the
empty string, interpolated between two spaces of the f-string; the
`LOCATION` clause is appended only when `location` is truthy and
`is_external` holds, before the final semicolon. -/
def generate_hive_ddl (table_name : String) (columns : List (String × String))
    (is_ext : Bool) (location : Option String) : String :=
  let table_type := if is_ext then "EXTERNAL" else ""
  let ddl := "CREATE " ++ table_type ++ " TABLE IF NOT EXISTS " ++ table_name ++ " (\n"
    ++ joinSep ",\n" (columns.map column_def)
    ++ "\n)\nSTORED AS PARQUET"
  let ddl := if locationTruthy location && is_ext then
      ddl ++ "\nLOCATION '" ++ location.getD "" ++ "/" ++ table_name ++ "'"
    else ddl
  ddl ++ ";"

/-- One iteration of the TPC-H driver's per-table writes
(`gen_tpch_data.py` lines 148-153): the comment line, then the DDL block
built with `is_external=False` and the defaulted `location=None`, then a
blank line. -/
def table_block (t : TableData) : String :=
  "-- Table: " ++ t.name ++ " (" ++ toString t.row_count ++ " rows)\n"
    ++ generate_hive_ddl t.name (get_table_schema t.raw_columns) false location_default
    ++ "\n\n"

/-- The TPC-H driver's DDL file path
(`gen_tpch_data.py` line 117): `os.path.join(output_dir, "tpch_sf1_hive.hql")`. -/
def ddl_file_path (output_dir : String) : String :=
  pathJoin output_dir "tpch_sf1_hive.hql"

/-- The full content the TPC-H driver writes to the DDL file
(`gen_tpch_data.py` lines 120-153), with the scale factor and the
generation timestamp already rendered as strings. -/
def ddl_file_content (scale_factor generation_time : String) (tables : List TableData) : String :=
  "-- Hive DDL for TPC-H SF" ++ scale_factor ++ "\n"
    ++ ("-- 生成时间: " ++ generation_time ++ "\n\n")
    ++ "-- 创建数据库\n"
    ++ "CREATE DATABASE IF NOT EXISTS tpch_sf1;\n"
    ++ "USE tpch_sf1;\n\n"
    ++ concatAll (tables.map table_block)

end tpch

/-- Nonempty all-digit character list (the `p` or `s` of a
`DECIMAL(p,s)` literal). -/
def allDigits (l : List Char) : Bool := !l.isEmpty && l.all (fun c => c.isDigit)

/-- Splits a character list at its first comma, returning the parts
before and after it. -/
def splitAtComma : List Char → Option (List Char × List Char)
  | [] => none
  | c :: rest =>
    if c = ',' then some ([], rest)
    else match splitAtComma rest with
      | some (a, b) => some (c :: a, b)
      | none => none

/-- Recognizes exactly the strings of the shape `DECIMAL(p,s)` with `p`
and `s` nonempty digit strings: the `DECIMAL(p,s)` form of the
specification's normalized-type vocabulary. -/
def isDecimalPS (t : String) : Bool :=
  ("DECIMAL(".data.isPrefixOf t.data)
    && (t.data.getLast? == some ')')
    && (match splitAtComma ((t.data.drop 8).dropLast) with
        | some (p, q) => allDigits p && allDigits q
        | none => false)

/-- Membership in the specification's closed normalized-type vocabulary:
one of the eleven fixed atomic names, or a `DECIMAL(p,s)` form. -/
def inNormalizedVocab (t : String) : Prop :=
  t ∈ (["INT", "BIGINT", "SMALLINT", "TINYINT", "FLOAT", "DOUBLE",
        "STRING", "BOOLEAN", "DATE", "TIMESTAMP", "BINARY"] : List String)
    ∨ isDecimalPS t = true

instance (t : String) : Decidable (inNormalizedVocab t) := by
  unfold inNormalizedVocab; infer_instance

/-- The twelve atomic type names that the `type_mapping` table can
produce (its value set together with the `STRING` fallback). -/
def atomicVocab : List String :=
  ["INT", "BIGINT", "SMALLINT", "TINYINT", "DECIMAL", "FLOAT", "DOUBLE",
   "STRING", "BOOLEAN", "DATE", "TIMESTAMP", "BINARY"]

/-! ### Helper lemmas -/

/-- A successful association-list lookup returns one of the stored values. -/
theorem lookup_mem_snd (l : List (String × String)) (k v : String)
    (h : l.lookup k = some v) : v ∈ l.map Prod.snd := by
  induction l with
  | nil => simp at h
  | cons p t ih =>
    obtain ⟨a, b⟩ := p
    rw [List.lookup] at h
    cases hk : k == a with
    | true =>
      rw [hk] at h
      simp only [Option.some.injEq] at h
      simp [← h]
    | false =>
      rw [hk] at h
      simp [ih h]

/-- Every result of the `type_mapping` lookup with the `STRING` default is
one of the twelve atomic type names. -/
theorem dictGet_mem_atomicVocab (u : String) :
    dictGet type_mapping u "STRING" ∈ atomicVocab := by
  unfold dictGet
  cases h : type_mapping.lookup u with
  | none => simp [atomicVocab]
  | some v =>
    have hv := lookup_mem_snd type_mapping u v h
    have hsub : ∀ x ∈ type_mapping.map Prod.snd, x ∈ atomicVocab := by decide
    simpa using hsub v hv

/-- A string containing a nonempty substring is nonempty. -/
theorem hay_ne_empty_of_inStr (needle hay : String) (hne : needle ≠ "")
    (h : inStr needle hay = true) : hay ≠ "" := by
  intro hh
  subst hh
  rw [inStr] at h
  rw [show isInfixOfB needle.data ("" : String).data = needle.data.isEmpty from rfl] at h
  exact hne (String.ext (by simpa using h))

/-- First branch of the normalizer: upper-cased input containing both
`DECIMAL` and `(` is returned as is. -/
theorem normalize_decimal_branch (s : String)
    (h : (inStr "DECIMAL" (pyUpper s) && inStr "(" (pyUpper s)) = true) :
    duckdb_type_to_hive_type s = pyUpper s := by
  unfold duckdb_type_to_hive_type
  simp [h]

/-- Second and third branches of the normalizer: without the `DECIMAL`
condition, containing `VARCHAR` or `CHAR` together with `(` gives `STRING`. -/
theorem normalize_char_branch (s : String)
    (h1 : (inStr "DECIMAL" (pyUpper s) && inStr "(" (pyUpper s)) = false)
    (h2 : ((inStr "VARCHAR" (pyUpper s) || inStr "CHAR" (pyUpper s)) && inStr "(" (pyUpper s)) = true) :
    duckdb_type_to_hive_type s = "STRING" := by
  unfold duckdb_type_to_hive_type
  rw [Bool.and_eq_true, Bool.or_eq_true] at h2
  obtain ⟨hvc, hp⟩ := h2
  have hD : inStr "DECIMAL" (pyUpper s) = false := by
    cases hD : inStr "DECIMAL" (pyUpper s) with
    | false => rfl
    | true => rw [hD, hp] at h1; simp at h1
  cases hvc with
  | inl hv => simp [hD, hv, hp]
  | inr hc =>
    cases hV : inStr "VARCHAR" (pyUpper s) with
    | true => simp [hD, hV, hp]
    | false => simp [hD, hV, hc, hp]

/-- Fallback branch of the normalizer: with none of the parenthesized
conditions holding, the result is the table lookup with default `STRING`. -/
theorem normalize_lookup_branch (s : String)
    (h1 : (inStr "DECIMAL" (pyUpper s) && inStr "(" (pyUpper s)) = false)
    (h2 : ((inStr "VARCHAR" (pyUpper s) || inStr "CHAR" (pyUpper s)) && inStr "(" (pyUpper s)) = false) :
    duckdb_type_to_hive_type s = dictGet type_mapping (pyUpper s) "STRING" := by
  unfold duckdb_type_to_hive_type
  cases hP : inStr "(" (pyUpper s) with
  | false => simp [hP]
  | true =>
    have hD : inStr "DECIMAL" (pyUpper s) = false := by
      cases hD : inStr "DECIMAL" (pyUpper s) with
      | false => rfl
      | true => rw [hD, hP] at h1; simp at h1
    rw [hP, Bool.and_true] at h2
    rw [Bool.or_eq_false_iff] at h2
    obtain ⟨hV, hC⟩ := h2
    simp [hD, hV, hC, hP]

/-! ### Claims -/

/-- C1: the type normalizer upper-cases its input; if the upper-cased
string contains `DECIMAL` and a `(`, it is returned unchanged; else if
it contains `VARCHAR` or `CHAR` together with a `(`, the result is
`STRING`; else the upper-cased name is looked up in the fixed table
(with the entries listed in the claim), defaulting to `STRING`; and
`normalize("VARCHAR(25)") = "STRING"`,
`normalize("DECIMAL(15,2)") = "DECIMAL(15,2)"`,
`normalize("INTEGER") = "INT"`, `normalize("UNKNOWNTYPE") = "STRING"`. -/
theorem c1_normalizer_case_analysis (s : String) :
    ((inStr "DECIMAL" (pyUpper s) && inStr "(" (pyUpper s)) = true →
      duckdb_type_to_hive_type s = pyUpper s)
  ∧ ((inStr "DECIMAL" (pyUpper s) && inStr "(" (pyUpper s)) = false →
      ((inStr "VARCHAR" (pyUpper s) || inStr "CHAR" (pyUpper s)) && inStr "(" (pyUpper s)) = true →
      duckdb_type_to_hive_type s = "STRING")
  ∧ ((inStr "DECIMAL" (pyUpper s) && inStr "(" (pyUpper s)) = false →
      ((inStr "VARCHAR" (pyUpper s) || inStr "CHAR" (pyUpper s)) && inStr "(" (pyUpper s)) = false →
      duckdb_type_to_hive_type s = dictGet type_mapping (pyUpper s) "STRING")
  ∧ (duckdb_type_to_hive_type "VARCHAR(25)" = "STRING"
      ∧ duckdb_type_to_hive_type "DECIMAL(15,2)" = "DECIMAL(15,2)"
      ∧ duckdb_type_to_hive_type "INTEGER" = "INT"
      ∧ duckdb_type_to_hive_type "UNKNOWNTYPE" = "STRING")
  ∧ (duckdb_type_to_hive_type "INTEGER" = "INT"
      ∧ duckdb_type_to_hive_type "INT" = "INT"
      ∧ duckdb_type_to_hive_type "BIGINT" = "BIGINT"
      ∧ duckdb_type_to_hive_type "SMALLINT" = "SMALLINT"
      ∧ duckdb_type_to_hive_type "TINYINT" = "TINYINT"
      ∧ duckdb_type_to_hive_type "DECIMAL" = "DECIMAL"
      ∧ duckdb_type_to_hive_type "NUMERIC" = "DECIMAL"
      ∧ duckdb_type_to_hive_type "REAL" = "FLOAT"
      ∧ duckdb_type_to_hive_type "FLOAT" = "FLOAT"
      ∧ duckdb_type_to_hive_type "DOUBLE" = "DOUBLE"
      ∧ duckdb_type_to_hive_type "VARCHAR" = "STRING"
      ∧ duckdb_type_to_hive_type "CHAR" = "STRING"
      ∧ duckdb_type_to_hive_type "TEXT" = "STRING"
      ∧ duckdb_type_to_hive_type "STRING" = "STRING"
      ∧ duckdb_type_to_hive_type "BOOLEAN" = "BOOLEAN"
      ∧ duckdb_type_to_hive_type "DATE" = "DATE"
      ∧ duckdb_type_to_hive_type "TIMESTAMP" = "TIMESTAMP"
      ∧ duckdb_type_to_hive_type "TIME" = "STRING"
      ∧ duckdb_type_to_hive_type "BLOB" = "BINARY"
      ∧ duckdb_type_to_hive_type "BINARY" = "BINARY") :=
  ⟨normalize_decimal_branch s,
   normalize_char_branch s,
   normalize_lookup_branch s,
   by decide,
   by decide⟩

/-- C1 witness: the three conditional cases applied at concrete inputs. -/
theorem c1_normalizer_case_analysis_witness :
    duckdb_type_to_hive_type "decimal(15,2)" = pyUpper "decimal(15,2)"
  ∧ duckdb_type_to_hive_type "varchar(25)" = "STRING"
  ∧ duckdb_type_to_hive_type "integer" = dictGet type_mapping (pyUpper "integer") "STRING" :=
  ⟨(c1_normalizer_case_analysis "decimal(15,2)").1 (by decide),
   (c1_normalizer_case_analysis "varchar(25)").2.1 (by decide) (by decide),
   (c1_normalizer_case_analysis "integer").2.2.1 (by decide) (by decide)⟩

/-- C2 counterexample: the TPC-DS script's builder does not produce the
claimed two-space string `CREATE  TABLE ...` — it writes a single space
after `CREATE` — so the claim fails for that script. -/
theorem c2_counterexample_tpcds_single_space :
    tpcds.generate_hive_ddl "t1" [("a", "INT"), ("b", "STRING")] ≠
      "CREATE  TABLE IF NOT EXISTS t1 (\n  a INT,\n  b STRING\n)\nSTORED AS PARQUET;" := by
  decide

/-- C2 amended: for the internal-table form on `t1` with columns
`a INT, b STRING`, the TPC-H builder (external=false, no location)
yields exactly the claimed string with two spaces after `CREATE`, while
the TPC-DS builder yields the same string with a single space. -/
theorem c2_internal_ddl_exact_strings :
    tpch.generate_hive_ddl "t1" [("a", "INT"), ("b", "STRING")] false none =
      "CREATE  TABLE IF NOT EXISTS t1 (\n  a INT,\n  b STRING\n)\nSTORED AS PARQUET;"
  ∧ tpcds.generate_hive_ddl "t1" [("a", "INT"), ("b", "STRING")] =
      "CREATE TABLE IF NOT EXISTS t1 (\n  a INT,\n  b STRING\n)\nSTORED AS PARQUET;" :=
  ⟨rfl, rfl⟩

/-- C3 counterexample: the two builders are not the same builder — on the
same input the TPC-DS builder and the TPC-H builder with external=false
produce different strings — and the TPC-H `is_external` parameter's
declared default is not false. -/
theorem c3_counterexample_builders_differ :
    tpcds.generate_hive_ddl "t1" [("a", "INT")] ≠
      tpch.generate_hive_ddl "t1" [("a", "INT")] false none
  ∧ tpch.is_external_default ≠ false := by
  constructor
  · decide
  · decide

/-- C3 amended: the two builders agree except for the `EXTERNAL` gap of
the f-string: for every table name and column sequence there is a common
suffix `rest` with the TPC-DS output `"CREATE " ++ rest` and the TPC-H
internal-form output `"CREATE  " ++ rest` (two spaces); and the TPC-H
builder's `is_external` parameter defaults to true (its driver passes
`is_external=False` explicitly). -/
theorem c3_builders_agree_up_to_gap (table_name : String) (columns : List (String × String)) :
    (∃ rest,
      tpcds.generate_hive_ddl table_name columns = "CREATE " ++ rest
      ∧ tpch.generate_hive_ddl table_name columns false none = "CREATE  " ++ rest)
  ∧ tpch.is_external_default = true := by
  refine ⟨⟨"TABLE IF NOT EXISTS " ++ table_name ++ " (\n"
      ++ joinSep ",\n" (columns.map column_def) ++ "\n)\nSTORED AS PARQUET;", rfl, ?_⟩, rfl⟩
  simp only [tpch.generate_hive_ddl, tpch.locationTruthy, Bool.and_false, Bool.false_eq_true,
    if_false, String.append_assoc, String.empty_append]
  rfl

/-- C10: on an empty column sequence each builder still returns a
well-formed statement whose column region between the parentheses is
empty, with no separator: the TPC-DS form, and the TPC-H internal form
with the external-flag gap. -/
theorem c10_empty_columns_ddl (table_name : String) :
    tpcds.generate_hive_ddl table_name [] =
      "CREATE TABLE IF NOT EXISTS " ++ table_name ++ " (\n\n)\nSTORED AS PARQUET;"
  ∧ tpch.generate_hive_ddl table_name [] false none =
      "CREATE  TABLE IF NOT EXISTS " ++ table_name ++ " (\n\n)\nSTORED AS PARQUET;" := by
  constructor
  · simp only [tpcds.generate_hive_ddl, List.map_nil, joinSep, String.append_assoc]
    rfl
  · simp only [tpch.generate_hive_ddl, tpch.locationTruthy, Bool.and_false, Bool.false_eq_true,
      if_false, List.map_nil, joinSep, String.append_assoc, String.empty_append]
    rfl

/-- C4 counterexample: the normalizer's output vocabulary is not the
claimed twelve forms: the native type `NUMERIC` is mapped to the bare
name `DECIMAL`, which is neither one of the eleven atomic forms nor of
the shape `DECIMAL(p,s)`. -/
theorem c4_counterexample_bare_decimal :
    duckdb_type_to_hive_type "NUMERIC" = "DECIMAL" ∧ ¬ inNormalizedVocab "DECIMAL" := by
  decide

/-- C4 amended: for every input, when the upper-cased input contains
`DECIMAL` and `(` the output is the upper-cased input verbatim;
otherwise the output is one of the twelve atomic names INT, BIGINT,
SMALLINT, TINYINT, DECIMAL, FLOAT, DOUBLE, STRING, BOOLEAN, DATE,
TIMESTAMP, BINARY; and an input whose upper-casing has no table entry
and no parenthesis maps to `STRING` rather than failing. -/
theorem c4_vocab_closed_up_to_passthrough (s : String) :
    ((inStr "DECIMAL" (pyUpper s) && inStr "(" (pyUpper s)) = true →
      duckdb_type_to_hive_type s = pyUpper s)
  ∧ ((inStr "DECIMAL" (pyUpper s) && inStr "(" (pyUpper s)) = false →
      duckdb_type_to_hive_type s ∈ atomicVocab)
  ∧ (type_mapping.lookup (pyUpper s) = none → inStr "(" (pyUpper s) = false →
      duckdb_type_to_hive_type s = "STRING") := by
  refine ⟨normalize_decimal_branch s, ?_, ?_⟩
  · intro h1
    cases h2 : ((inStr "VARCHAR" (pyUpper s) || inStr "CHAR" (pyUpper s)) && inStr "(" (pyUpper s)) with
    | true =>
      rw [normalize_char_branch s h1 h2]
      decide
    | false =>
      rw [normalize_lookup_branch s h1 h2]
      exact dictGet_mem_atomicVocab (pyUpper s)
  · intro hl hp
    have h1 : (inStr "DECIMAL" (pyUpper s) && inStr "(" (pyUpper s)) = false := by
      rw [hp, Bool.and_false]
    have h2 : ((inStr "VARCHAR" (pyUpper s) || inStr "CHAR" (pyUpper s)) && inStr "(" (pyUpper s)) = false := by
      rw [hp, Bool.and_false]
    rw [normalize_lookup_branch s h1 h2]
    unfold dictGet
    rw [hl]
    rfl

/-- C4 witness: the amended cases applied at concrete inputs. -/
theorem c4_vocab_closed_up_to_passthrough_witness :
    duckdb_type_to_hive_type "DECIMAL(1,2)" = pyUpper "DECIMAL(1,2)"
  ∧ duckdb_type_to_hive_type "INTEGER" ∈ atomicVocab
  ∧ duckdb_type_to_hive_type "UNKNOWNTYPE" = "STRING" :=
  ⟨(c4_vocab_closed_up_to_passthrough "DECIMAL(1,2)").1 (by decide),
   (c4_vocab_closed_up_to_passthrough "INTEGER").2.1 (by decide),
   (c4_vocab_closed_up_to_passthrough "UNKNOWNTYPE").2.2 (by decide) (by decide)⟩

/-- C5 counterexample: with `external=true` and `location=None` the
`LOCATION` clause is indeed omitted, but the builder emits a
`CREATE EXTERNAL TABLE` declaration — not the managed (internal) form
the same builder produces with `external=false` — refuting the claim's
"in every other case ... producing a managed (internal) table". -/
theorem c5_counterexample_external_without_location :
    tpch.generate_hive_ddl "t1" [("a", "INT")] true none =
      "CREATE EXTERNAL TABLE IF NOT EXISTS t1 (\n  a INT\n)\nSTORED AS PARQUET;"
  ∧ tpch.generate_hive_ddl "t1" [("a", "INT")] true none ≠
      "CREATE  TABLE IF NOT EXISTS t1 (\n  a INT\n)\nSTORED AS PARQUET;" :=
  ⟨rfl, by decide⟩

/-- C5 amended: the TPC-H builder emits the `LOCATION` clause exactly
when the external flag is true and the location is a nonempty string,
appending `LOCATION '<location>/<table_name>'`; in every other case
(in particular `location = none`) the clause is omitted, but the
declaration is managed (internal) only when the external flag is
false — the clause-free output keeps `EXTERNAL` whenever the flag is
true; with the claim's concrete instances. -/
theorem c5_location_emission_amended (table_name : String) (columns : List (String × String))
    (is_ext : Bool) (location : Option String) :
    (∀ l, is_ext = true → location = some l → l ≠ "" →
      tpch.generate_hive_ddl table_name columns is_ext location =
        "CREATE EXTERNAL TABLE IF NOT EXISTS " ++ table_name ++ " (\n"
          ++ joinSep ",\n" (columns.map column_def)
          ++ "\n)\nSTORED AS PARQUET\nLOCATION '" ++ l ++ "/" ++ table_name ++ "';")
  ∧ ((tpch.locationTruthy location && is_ext) = false →
      tpch.generate_hive_ddl table_name columns is_ext location =
        "CREATE " ++ (if is_ext then "EXTERNAL" else "") ++ " TABLE IF NOT EXISTS " ++ table_name
          ++ " (\n" ++ joinSep ",\n" (columns.map column_def) ++ "\n)\nSTORED AS PARQUET;")
  ∧ (is_ext = false →
      tpch.generate_hive_ddl table_name columns is_ext location =
        "CREATE  TABLE IF NOT EXISTS " ++ table_name
          ++ " (\n" ++ joinSep ",\n" (columns.map column_def) ++ "\n)\nSTORED AS PARQUET;")
  ∧ tpch.generate_hive_ddl "t1" [("a", "INT")] true (some "/data") =
      "CREATE EXTERNAL TABLE IF NOT EXISTS t1 (\n  a INT\n)\nSTORED AS PARQUET\nLOCATION '/data/t1';"
  ∧ tpch.generate_hive_ddl "t1" [("a", "INT")] true none =
      "CREATE EXTERNAL TABLE IF NOT EXISTS t1 (\n  a INT\n)\nSTORED AS PARQUET;" := by
  refine ⟨?_, ?_, ?_, rfl, rfl⟩
  · intro l he hl hne
    subst he
    subst hl
    have hbe : (l == "") = false := by
      rw [beq_eq_false_iff_ne]
      exact hne
    simp only [tpch.generate_hive_ddl, tpch.locationTruthy, hbe, Bool.not_false, Bool.and_true,
      if_true, Option.getD_some, String.append_assoc]
    rfl
  · intro h
    simp only [tpch.generate_hive_ddl, h, Bool.false_eq_true, if_false, String.append_assoc]
    rfl
  · intro he
    subst he
    simp only [tpch.generate_hive_ddl, Bool.and_false, Bool.false_eq_true, if_false,
      String.append_assoc, String.empty_append]
    rfl

/-- C5 witness: the three conditional cases applied at concrete inputs,
the last one with a location that the false flag makes irrelevant. -/
theorem c5_location_emission_amended_witness :
    tpch.generate_hive_ddl "t1" [("a", "INT")] true (some "/data") =
      "CREATE EXTERNAL TABLE IF NOT EXISTS " ++ "t1" ++ " (\n"
        ++ joinSep ",\n" ([("a", "INT")].map column_def)
        ++ "\n)\nSTORED AS PARQUET\nLOCATION '" ++ "/data" ++ "/" ++ "t1" ++ "';"
  ∧ tpch.generate_hive_ddl "t1" [("a", "INT")] false none =
      "CREATE " ++ (if false then "EXTERNAL" else "") ++ " TABLE IF NOT EXISTS " ++ "t1"
        ++ " (\n" ++ joinSep ",\n" ([("a", "INT")].map column_def) ++ "\n)\nSTORED AS PARQUET;"
  ∧ tpch.generate_hive_ddl "t1" [("a", "INT")] false (some "/data") =
      "CREATE  TABLE IF NOT EXISTS " ++ "t1"
        ++ " (\n" ++ joinSep ",\n" ([("a", "INT")].map column_def) ++ "\n)\nSTORED AS PARQUET;" :=
  ⟨(c5_location_emission_amended "t1" [("a", "INT")] true (some "/data")).1 "/data" rfl rfl
      (by decide),
   (c5_location_emission_amended "t1" [("a", "INT")] false none).2.1 (by decide),
   (c5_location_emission_amended "t1" [("a", "INT")] false (some "/data")).2.2.1 rfl⟩

/-- C6: both builders emit the column definitions in exactly the input
order: each output contains the separator-joined column definitions
verbatim, the rendered list has the same length as the input, and its
i-th entry is two spaces, the i-th name, one space, the i-th type. -/
theorem c6_column_order_preserved (table_name : String) (columns : List (String × String)) :
    (∃ pre post, tpcds.generate_hive_ddl table_name columns =
      pre ++ joinSep ",\n" (columns.map column_def) ++ post)
  ∧ (∀ is_ext location, ∃ pre post, tpch.generate_hive_ddl table_name columns is_ext location =
      pre ++ joinSep ",\n" (columns.map column_def) ++ post)
  ∧ (columns.map column_def).length = columns.length
  ∧ (∀ (i : Nat) (n t : String), columns[i]? = some (n, t) →
      (columns.map column_def)[i]? = some ("  " ++ n ++ " " ++ t)) := by
  refine ⟨⟨"CREATE TABLE IF NOT EXISTS " ++ table_name ++ " (\n", "\n)\nSTORED AS PARQUET;", rfl⟩,
    ?_, by simp, ?_⟩
  · intro is_ext location
    cases h : (tpch.locationTruthy location && is_ext) with
    | true =>
      refine ⟨"CREATE " ++ (if is_ext then "EXTERNAL" else "") ++ " TABLE IF NOT EXISTS "
          ++ table_name ++ " (\n",
        "\n)\nSTORED AS PARQUET" ++ "\nLOCATION '" ++ location.getD "" ++ "/" ++ table_name
          ++ "'" ++ ";", ?_⟩
      simp only [tpch.generate_hive_ddl, h, if_true, String.append_assoc]
    | false =>
      refine ⟨"CREATE " ++ (if is_ext then "EXTERNAL" else "") ++ " TABLE IF NOT EXISTS "
          ++ table_name ++ " (\n",
        "\n)\nSTORED AS PARQUET" ++ ";", ?_⟩
      simp only [tpch.generate_hive_ddl, h, Bool.false_eq_true, if_false, String.append_assoc]
  · intro i n t h
    simp [List.getElem?_map, h, column_def]

/-- C6 witness: the indexed-column case applied at a concrete input. -/
theorem c6_column_order_preserved_witness :
    ([("a", "INT")].map column_def)[0]? = some ("  " ++ "a" ++ " " ++ "INT") :=
  (c6_column_order_preserved "t" [("a", "INT")]).2.2.2 0 "a" "INT" rfl

/-- C7: the type normalizer is total over all strings: it always returns
a (nonempty) string result, and on the empty string it returns `STRING`;
the embedding is a pure function, so it has no side effects. -/
theorem c7_normalizer_total (s : String) :
    duckdb_type_to_hive_type s ≠ "" ∧ duckdb_type_to_hive_type "" = "STRING" := by
  constructor
  · cases h1 : (inStr "DECIMAL" (pyUpper s) && inStr "(" (pyUpper s)) with
    | true =>
      rw [normalize_decimal_branch s h1]
      rw [Bool.and_eq_true] at h1
      exact hay_ne_empty_of_inStr "DECIMAL" (pyUpper s) (by decide) h1.1
    | false =>
      cases h2 : ((inStr "VARCHAR" (pyUpper s) || inStr "CHAR" (pyUpper s)) && inStr "(" (pyUpper s)) with
      | true =>
        rw [normalize_char_branch s h1 h2]
        decide
      | false =>
        rw [normalize_lookup_branch s h1 h2]
        have hmem := dictGet_mem_atomicVocab (pyUpper s)
        have hall : ∀ x ∈ atomicVocab, x ≠ "" := by decide
        exact hall _ hmem
  · decide

/-- C8: each driver writes its DDL to
`<output_dir>/<dataset>_sf1_hive.hql`; the content carries the preamble
`CREATE DATABASE IF NOT EXISTS <db>;` then `USE <db>;` before any table
block; each table contributes, in engine listing order, the comment
`-- Table: <name> (<rows> rows)` immediately followed by its
`CREATE TABLE IF NOT EXISTS` block; and on the engine reporting table
`region` with 5 rows and columns `(r_regionkey, INTEGER)`,
`(r_name, VARCHAR(25))`, the file contains the expected block with
types `INT` and `STRING`. -/
theorem c8_ddl_file_layout (output_dir scale_factor generation_time : String)
    (tables : List TableData) :
    (output_dir ≠ "" → (output_dir.data.getLast? == some '/') = false →
      tpcds.ddl_file_path output_dir = output_dir ++ "/" ++ "tpcds_sf1_hive.hql"
      ∧ tpch.ddl_file_path output_dir = output_dir ++ "/" ++ "tpch_sf1_hive.hql")
  ∧ (∃ hdr, tpcds.ddl_file_content scale_factor generation_time tables =
      hdr ++ ("CREATE DATABASE IF NOT EXISTS tpcds_sf1;\n" ++ "USE tpcds_sf1;\n\n")
        ++ concatAll (tables.map tpcds.table_block))
  ∧ (∃ hdr, tpch.ddl_file_content scale_factor generation_time tables =
      hdr ++ ("CREATE DATABASE IF NOT EXISTS tpch_sf1;\n" ++ "USE tpch_sf1;\n\n")
        ++ concatAll (tables.map tpch.table_block))
  ∧ (∀ t : TableData, tpcds.table_block t =
      "-- Table: " ++ t.name ++ " (" ++ toString t.row_count ++ " rows)\n"
        ++ tpcds.generate_hive_ddl t.name (get_table_schema t.raw_columns) ++ "\n\n")
  ∧ (∀ t : TableData, tpch.table_block t =
      "-- Table: " ++ t.name ++ " (" ++ toString t.row_count ++ " rows)\n"
        ++ tpch.generate_hive_ddl t.name (get_table_schema t.raw_columns) false none ++ "\n\n")
  ∧ (∃ pre, tpcds.ddl_file_content scale_factor generation_time
        [⟨"region", 5, [("r_regionkey", "INTEGER"), ("r_name", "VARCHAR(25)")]⟩] =
      pre ++ "-- Table: region (5 rows)\nCREATE TABLE IF NOT EXISTS region (\n  r_regionkey INT,\n  r_name STRING\n)\nSTORED AS PARQUET;\n\n") := by
  refine ⟨?_, ?_, ?_, fun t => rfl, fun t => rfl, ?_⟩
  · intro h1 h2
    constructor
    · simp [tpcds.ddl_file_path, pathJoin, h1, h2]
    · simp [tpch.ddl_file_path, pathJoin, h1, h2]
  · refine ⟨"-- Hive DDL for TPC-DS SF" ++ scale_factor ++ "\n"
      ++ ("-- 生成时间: " ++ generation_time ++ "\n\n") ++ "-- 创建数据库\n", ?_⟩
    simp only [tpcds.ddl_file_content, String.append_assoc]
  · refine ⟨"-- Hive DDL for TPC-H SF" ++ scale_factor ++ "\n"
      ++ ("-- 生成时间: " ++ generation_time ++ "\n\n") ++ "-- 创建数据库\n", ?_⟩
    simp only [tpch.ddl_file_content, String.append_assoc]
  · refine ⟨"-- Hive DDL for TPC-DS SF" ++ scale_factor ++ "\n"
      ++ ("-- 生成时间: " ++ generation_time ++ "\n\n") ++ "-- 创建数据库\n"
      ++ "CREATE DATABASE IF NOT EXISTS tpcds_sf1;\n" ++ "USE tpcds_sf1;\n\n", ?_⟩
    rfl

/-- C8 witness: the path case applied at a concrete output directory. -/
theorem c8_ddl_file_layout_witness :
    tpcds.ddl_file_path "out" = "out" ++ "/" ++ "tpcds_sf1_hive.hql"
    ∧ tpch.ddl_file_path "out" = "out" ++ "/" ++ "tpch_sf1_hive.hql" :=
  (c8_ddl_file_layout "out" "1" "now" []).1 (by decide) (by decide)

/-- C9: in the TPC-H builder the `EXTERNAL` keyword is present exactly
when the external flag is true, whatever the location argument: with the
flag true the statement starts `CREATE EXTERNAL TABLE IF NOT EXISTS`,
with the flag false it starts `CREATE  TABLE IF NOT EXISTS`; and with
flag true and no location the full output is the external form ending in
`STORED AS PARQUET;` with no `LOCATION` clause. -/
theorem c9_external_keyword_iff_flag (table_name : String) (columns : List (String × String)) :
    (∀ location, ∃ rest, tpch.generate_hive_ddl table_name columns true location =
      "CREATE EXTERNAL TABLE IF NOT EXISTS " ++ rest)
  ∧ (∀ location, ∃ rest, tpch.generate_hive_ddl table_name columns false location =
      "CREATE  TABLE IF NOT EXISTS " ++ rest)
  ∧ tpch.generate_hive_ddl table_name columns true none =
      "CREATE EXTERNAL TABLE IF NOT EXISTS " ++ table_name ++ " (\n"
        ++ joinSep ",\n" (columns.map column_def) ++ "\n)\nSTORED AS PARQUET;" := by
  refine ⟨?_, ?_, ?_⟩
  · intro location
    cases h : tpch.locationTruthy location with
    | true =>
      refine ⟨table_name ++ " (\n" ++ joinSep ",\n" (columns.map column_def)
        ++ "\n)\nSTORED AS PARQUET" ++ "\nLOCATION '" ++ location.getD "" ++ "/"
        ++ table_name ++ "'" ++ ";", ?_⟩
      simp only [tpch.generate_hive_ddl, h, Bool.and_true, if_true, String.append_assoc]
      rfl
    | false =>
      refine ⟨table_name ++ " (\n" ++ joinSep ",\n" (columns.map column_def)
        ++ "\n)\nSTORED AS PARQUET;", ?_⟩
      simp only [tpch.generate_hive_ddl, h, Bool.false_and, Bool.and_true, Bool.false_eq_true,
        if_false, String.append_assoc]
      rfl
  · intro location
    refine ⟨table_name ++ " (\n" ++ joinSep ",\n" (columns.map column_def)
      ++ "\n)\nSTORED AS PARQUET;", ?_⟩
    simp only [tpch.generate_hive_ddl, Bool.and_false, Bool.false_eq_true, if_false,
      String.append_assoc, String.empty_append]
    rfl
  · simp only [tpch.generate_hive_ddl, tpch.locationTruthy, Bool.and_true, Bool.false_eq_true,
      if_false, String.append_assoc]
    rfl
